import Mathlib

/-!
Shallow embedding of `src/summerlog/ai_log_summary.py` (the summerlog
pipeline): the batcher (`build_prompt`), the source adapter
(`get_docker_containers`, `get_container_logs`) and the orchestrator
(`main`).  External effects (the watermark file, `docker`, the OpenAI
client, SMTP) are supplied by an explicit environment record, and the
orchestrator is a pure function from that environment to the run's
observable outcome: exit status, final watermark file content, the
ordered trace of effectful steps, and the summarizer/delivery results.
-/

/-- Python `s.strip()`: remove leading and trailing whitespace. -/
def pyStrip (s : String) : String :=
  String.mk (((s.data.dropWhile Char.isWhitespace).reverse.dropWhile Char.isWhitespace).reverse)

/-- Python slice `l[-m:]` for a nonnegative int `m`.  For `m = 0` the slice
`l[-0:]` is `l[0:]`, the whole list; for `m > 0` the start index `len - m`
is clamped at `0`, so the result is the last `min m len` elements. -/
def pySliceLast (m : Nat) (l : List Char) : List Char :=
  if m = 0 then l else l.drop (l.length - m)

/-- `trimmed_logs = logs[-MAX_LOG_CHARS:]` in `build_prompt`. -/
def trimLogs (maxChars : Nat) (logs : String) : String :=
  String.mk (pySliceLast maxChars logs.data)

/-- One entry of `build_prompt`'s `log_sections`:
the f-string around a container name and its (already trimmed) logs. -/
def logSection (name body : String) : String :=
  "## Container: " ++ name ++ "\n\n```\n" ++ body ++ "\n```"

/-- Number of formatting characters `logSection` adds around the name and
the kept text: `"## Container: "` (14) plus the code-fence glue (10). -/
def sectionOverhead : Nat := 24

/-- The `log_sections` list built by the loop in `build_prompt`. -/
def logSections (maxChars : Nat) (logData : List (String × String)) : List String :=
  logData.map (fun p => logSection p.1 (trimLogs maxChars p.2))

/-- Python `sep.join(parts)`. -/
def joinSep (sep : String) : List String → String
  | [] => ""
  | [s] => s
  | s :: t :: rest => s ++ sep ++ joinSep sep (t :: rest)

/-- Space or tab, the character class of the dedent regexes. -/
def isPySpace (c : Char) : Bool := c == ' ' || c == '\t'

/-- First pass of `textwrap.dedent`: a line made only of spaces/tabs is
normalized to an empty line. -/
def normWsLine (l : String) : String :=
  if !l.data.isEmpty && l.data.all isPySpace then "" else l

/-- Leading-whitespace capture of `textwrap.dedent`: for a line holding a
character other than space/tab, its run of leading spaces/tabs. -/
def lineMargin (l : String) : Option (List Char) :=
  if l.data.any (fun c => !isPySpace c) then some (l.data.takeWhile isPySpace) else none

/-- Longest common starting run of two character lists; this is what
`textwrap.dedent`'s margin-merging loop computes for each pair. -/
def commonStart : List Char → List Char → List Char
  | x :: xs, y :: ys => if x = y then x :: commonStart xs ys else []
  | _, _ => []

/-- Does `l` start with `pat`? -/
def listStartsWith : List Char → List Char → Bool
  | [], _ => true
  | _ :: _, [] => false
  | x :: xs, y :: ys => x == y && listStartsWith xs ys

/-- `textwrap.dedent`: blank out whitespace-only lines, compute the common
leading-whitespace margin of the content lines, and strip that margin from
the start of every line carrying it. -/
def pyDedent (text : String) : String :=
  let lines := (text.splitOn "\n").map normWsLine
  let margins := lines.filterMap lineMargin
  let margin := match margins with
    | [] => []
    | i :: rest => rest.foldl commonStart i
  let stripped :=
    if margin.isEmpty then lines
    else lines.map (fun l =>
      if listStartsWith margin l.data then String.mk (l.data.drop margin.length) else l)
  joinSep "\n" stripped

/-- The f-string template of `build_prompt`, with `since_str` and
`logs_block` interpolated at their places (before the dedent call). -/
def promptTemplate (sinceStr logsBlock : String) : String :=
  "\n    You are an expert SRE assistant. Your task is to analyze the following Docker container logs since "
  ++ sinceStr
  ++ " and provide a clear, actionable summary.\n\n    Please structure your response in Markdown as follows:\n\n    ### 1. Overall Health Summary\n    - A brief, one-sentence summary of the system's health. If everything is normal, state that clearly.\n\n    ### 2. Key Events & Issues\n    - Use a bulleted list to describe significant events, warnings, or errors.\n    - For each item, specify the affected container and the severity.\n    - **IMPORTANT**: Wrap the severity level in a span tag with a class corresponding to the severity. For example:\n      - For HIGH severity: `<span class=\"severity-high\">HIGH</span>`\n      - For MEDIUM severity: `<span class=\"severity-medium\">MEDIUM</span>`\n      - For LOW severity: `<span class=\"severity-low\">LOW</span>`\n\n    ### 3. Recommendations & Next Steps\n    - For each issue identified, provide a clear, numbered list of recommended actions to investigate or resolve it.\n    - If no issues are found, recommend continued monitoring.\n\n    Here are the logs:\n\n    "
  ++ logsBlock
  ++ "\n    "

/-- `build_prompt(log_data, since_str)` with the module global
`MAX_LOG_CHARS` passed explicitly: trim each source's logs, render the
sections, join them with blank lines and dedent the filled template. -/
def buildPrompt (maxChars : Nat) (logData : List (String × String)) (sinceStr : String) : String :=
  pyDedent (promptTemplate sinceStr (joinSep "\n\n" (logSections maxChars logData)))

/-- Effectful steps of a run of `main`, in the order the code performs
them.  `captureNow` is `current_timestamp = datetime.now(timezone.utc)`,
the only step here that touches no external system. -/
inductive Event where
  | readWatermark
  | captureNow
  | listSources
  | fetchLogs (name : String)
  | callSummarizer
  | sendEmail
  | writeWatermark (value : String)
deriving DecidableEq

/-- How the Python process terminates: a plain return from `main` (exit
status 0), `raise SystemExit(message)` (status 1, message printed), or
`raise SystemExit(code)`. -/
inductive Outcome where
  | normalExit
  | sysExitMsg (msg : String)
  | sysExitCode (code : Nat)
deriving DecidableEq

/-- Process exit status of an `Outcome`. -/
def Outcome.exitCode : Outcome → Nat
  | Outcome.normalExit => 0
  | Outcome.sysExitMsg _ => 1
  | Outcome.sysExitCode c => c

/-- Observable result of one run: termination outcome, final content of
the watermark file, the ordered step trace, and what the summarizer and
the mailer reported (when they were invoked at all). -/
structure RunResult where
  outcome : Outcome
  watermarkFile : Option String
  trace : List Event
  summarizerOutcome : Option (Except String String)
  deliveryOutcome : Option Bool

/-- Environment of one run: configuration already loaded from the dotenv
file, the initial watermark file content, the clock values the run would
sample, and the behavior of the three external collaborators (docker,
the summarizer client, SMTP delivery). -/
structure Env where
  /-- `args.dry_run`. -/
  dryRun : Bool
  /-- `all([API_KEY, SMTP_HOST, EMAIL_FROM, EMAIL_TO])`. -/
  configOk : Bool
  /-- `DOTENV_PATH`, used only inside the missing-config message. -/
  dotenvPath : String
  /-- Content of `TIMESTAMP_FILE`; `none` models `FileNotFoundError`. -/
  watermark : Option String
  /-- `SINCE_HOURS`. -/
  sinceHours : Nat
  /-- `(datetime.now(timezone.utc) - timedelta(hours=SINCE_HOURS)).isoformat()`,
  the fallback `since_iso` computed when the watermark file is absent. -/
  fallbackSince : String
  /-- `datetime.now(timezone.utc).isoformat()` sampled as `current_timestamp`. -/
  nowStart : String
  /-- `CONTAINERS`, the allow-list from the environment. -/
  containersEnv : List String
  /-- Result of `docker ps --format ...` (decoded names), or the message of
  the `SystemExit` that `get_docker_containers` raises when the call fails. -/
  dockerPs : Except String (List String)
  /-- `docker logs <name> --since=<since_iso>`: the decoded log text, or the
  decoded output of the `CalledProcessError` when the fetch fails. -/
  fetch : String → String → Except String String
  /-- `get_ai_summary`'s classified result for a prompt: the stripped
  summary text, or the `"Error calling OpenAI API: ..."` message. -/
  summarize : String → Except String String
  /-- Return value of `send_email` for this run's summary. -/
  emailOk : Bool
  /-- `MAX_LOG_CHARS`. -/
  maxLogChars : Nat

/-- `since_iso` as computed at the top of `main`: the stripped watermark
file content when present, otherwise the lookback fallback. -/
def sinceIso (env : Env) : String :=
  match env.watermark with
  | some content => pyStrip content
  | none => env.fallbackSince

/-- `since_str`, the human-readable window description. -/
def sinceStrOf (env : Env) : String :=
  match env.watermark with
  | some content => "the last run at " ++ pyStrip content
  | none => "the last " ++ toString env.sinceHours ++ " hours"

/-- `get_docker_containers`: the allow-list when nonempty, else the
`docker ps` call (whose failure is a `SystemExit`). -/
def getDockerContainers (env : Env) : Except String (List String) :=
  if !env.containersEnv.isEmpty then Except.ok env.containersEnv else env.dockerPs

/-- `get_container_logs`: the fetched text, with a per-source fetch
failure converted into the inline error-marker text. -/
def getContainerLogs (env : Env) (containerName sinceIsoArg : String) : String :=
  match env.fetch containerName sinceIsoArg with
  | Except.ok logs => logs
  | Except.error out => "Error collecting logs: " ++ out

/-- Python dict assignment `d[k] = v`: overwrite in place when the key
exists, else append a new entry (insertion order preserved). -/
def insertLog (m : List (String × String)) (k v : String) : List (String × String) :=
  if m.any (fun p => p.1 == k) then
    m.map (fun p => if p.1 == k then (k, v) else p)
  else m ++ [(k, v)]

/-- The `log_data` dict built by the fetch loop in `main`. -/
def collectLogData (env : Env) (sinceIsoArg : String) (names : List String) : List (String × String) :=
  names.foldl (fun m n => insertLog m n (getContainerLogs env n sinceIsoArg)) []

/-- `main` from the all-logs-empty check on, for a nonempty container
list: commit on empty window, else summarize, then dry-run bypass,
delivery, and the final watermark write. -/
def runCollected (env : Env) (containers : List String) : RunResult :=
  if (collectLogData env (sinceIso env) containers).all (fun p => p.2 == "") then
    ⟨Outcome.normalExit, some env.nowStart,
      [Event.readWatermark, Event.captureNow, Event.listSources]
        ++ containers.map Event.fetchLogs ++ [Event.writeWatermark env.nowStart],
      none, none⟩
  else
    match env.summarize
        (buildPrompt env.maxLogChars (collectLogData env (sinceIso env) containers) (sinceStrOf env)) with
    | Except.error e =>
      ⟨Outcome.sysExitCode 1, env.watermark,
        [Event.readWatermark, Event.captureNow, Event.listSources]
          ++ containers.map Event.fetchLogs ++ [Event.callSummarizer],
        some (Except.error e), none⟩
    | Except.ok summary =>
      if env.dryRun then
        ⟨Outcome.normalExit, env.watermark,
          [Event.readWatermark, Event.captureNow, Event.listSources]
            ++ containers.map Event.fetchLogs ++ [Event.callSummarizer],
          some (Except.ok summary), none⟩
      else if env.emailOk then
        ⟨Outcome.normalExit, some env.nowStart,
          [Event.readWatermark, Event.captureNow, Event.listSources]
            ++ containers.map Event.fetchLogs
            ++ [Event.callSummarizer, Event.sendEmail, Event.writeWatermark env.nowStart],
          some (Except.ok summary), some true⟩
      else
        ⟨Outcome.sysExitCode 1, env.watermark,
          [Event.readWatermark, Event.captureNow, Event.listSources]
            ++ containers.map Event.fetchLogs
            ++ [Event.callSummarizer, Event.sendEmail],
          some (Except.ok summary), some false⟩

/-- `main`: required-config check, watermark read, run-start capture,
container enumeration, the empty-fleet early return, then `runCollected`. -/
def mainRun (env : Env) : RunResult :=
  if env.configOk then
    match getDockerContainers env with
    | Except.error msg =>
      ⟨Outcome.sysExitMsg msg, env.watermark,
        [Event.readWatermark, Event.captureNow, Event.listSources], none, none⟩
    | Except.ok containers =>
      if containers.isEmpty then
        ⟨Outcome.normalExit, env.watermark,
          [Event.readWatermark, Event.captureNow, Event.listSources], none, none⟩
      else runCollected env containers
  else
    ⟨Outcome.sysExitMsg
        ("Missing required env vars. Check " ++ env.dotenvPath
          ++ " for: OPENAI_API_KEY, SMTP_HOST, EMAIL_FROM, EMAIL_TO"),
      env.watermark, [], none, none⟩

/-- Every step other than the clock sample touches an external system
(the watermark file, docker, the summarizer, or SMTP). -/
def isExternalEvent : Event → Bool
  | Event.captureNow => false
  | _ => true

/-- Rendering of claim C2's wording "captured before any I/O": every step
preceding the run-start clock sample in the trace is effect-free. -/
def capturedBeforeExternals (tr : List Event) : Bool :=
  (tr.takeWhile (fun e => !(e == Event.captureNow))).all (fun e => !(isExternalEvent e))

/-- `t` is a tail (suffix) of `s`. -/
def IsTailOf (t s : List Char) : Prop := ∃ pre, pre ++ t = s

/-- `t` occurs contiguously inside `s`. -/
def IsPartOf (t s : List Char) : Prop := ∃ pre post, pre ++ (t ++ post) = s

/-- A run environment on the fully successful delivery path. -/
def envW1 : Env :=
  { dryRun := false
    configOk := true
    dotenvPath := "/home/user/.config/summerlog/.env"
    watermark := some "2024-01-01T00:00:00+00:00"
    sinceHours := 24
    fallbackSince := "2024-05-31T12:00:00+00:00"
    nowStart := "2024-06-01T12:00:00+00:00"
    containersEnv := ["web"]
    dockerPs := Except.ok []
    fetch := fun _ _ => Except.ok "hello logs"
    summarize := fun _ => Except.ok "All healthy."
    emailOk := true
    maxLogChars := 20000 }

/-- A run environment on the empty-window commit path (the one source
fetches an empty log text). -/
def envC2 : Env :=
  { dryRun := false
    configOk := true
    dotenvPath := "/home/user/.config/summerlog/.env"
    watermark := some "2024-01-01T00:00:00+00:00"
    sinceHours := 24
    fallbackSince := "2024-05-31T12:00:00+00:00"
    nowStart := "2024-06-01T12:00:00+00:00"
    containersEnv := ["web"]
    dockerPs := Except.ok []
    fetch := fun _ _ => Except.ok ""
    summarize := fun _ => Except.ok "All healthy."
    emailOk := true
    maxLogChars := 20000 }

/-- A run environment where the summarizer client reports an error. -/
def envW3 : Env :=
  { dryRun := false
    configOk := true
    dotenvPath := "/home/user/.config/summerlog/.env"
    watermark := some "2024-01-01T00:00:00+00:00"
    sinceHours := 24
    fallbackSince := "2024-05-31T12:00:00+00:00"
    nowStart := "2024-06-01T12:00:00+00:00"
    containersEnv := ["web"]
    dockerPs := Except.ok []
    fetch := fun _ _ => Except.ok "hello logs"
    summarize := fun _ => Except.error "Error calling OpenAI API: boom"
    emailOk := true
    maxLogChars := 20000 }

/-- A run environment where delivery (send_email) fails. -/
def envW4 : Env :=
  { dryRun := false
    configOk := true
    dotenvPath := "/home/user/.config/summerlog/.env"
    watermark := some "2024-01-01T00:00:00+00:00"
    sinceHours := 24
    fallbackSince := "2024-05-31T12:00:00+00:00"
    nowStart := "2024-06-01T12:00:00+00:00"
    containersEnv := ["web"]
    dockerPs := Except.ok []
    fetch := fun _ _ => Except.ok "hello logs"
    summarize := fun _ => Except.ok "All healthy."
    emailOk := false
    maxLogChars := 20000 }

/-- A dry-run environment whose collection window turns out empty. -/
def envC5 : Env :=
  { dryRun := true
    configOk := true
    dotenvPath := "/home/user/.config/summerlog/.env"
    watermark := some "2024-01-01T00:00:00+00:00"
    sinceHours := 24
    fallbackSince := "2024-05-31T12:00:00+00:00"
    nowStart := "2024-06-01T12:00:00+00:00"
    containersEnv := ["web"]
    dockerPs := Except.ok []
    fetch := fun _ _ => Except.ok ""
    summarize := fun _ => Except.ok "All healthy."
    emailOk := true
    maxLogChars := 20000 }

/-- A run environment where the fetch for source "a" fails while source
"b" fetches normally. -/
def envW6 : Env :=
  { dryRun := false
    configOk := true
    dotenvPath := "/home/user/.config/summerlog/.env"
    watermark := some "2024-01-01T00:00:00+00:00"
    sinceHours := 24
    fallbackSince := "2024-05-31T12:00:00+00:00"
    nowStart := "2024-06-01T12:00:00+00:00"
    containersEnv := ["a", "b"]
    dockerPs := Except.ok []
    fetch := fun n _ => if n == "a" then Except.error "boom" else Except.ok "hello logs"
    summarize := fun _ => Except.ok "All healthy."
    emailOk := true
    maxLogChars := 20000 }

/-- A run environment where source enumeration itself fails. -/
def envW7 : Env :=
  { dryRun := false
    configOk := true
    dotenvPath := "/home/user/.config/summerlog/.env"
    watermark := some "2024-01-01T00:00:00+00:00"
    sinceHours := 24
    fallbackSince := "2024-05-31T12:00:00+00:00"
    nowStart := "2024-06-01T12:00:00+00:00"
    containersEnv := []
    dockerPs := Except.error "Error getting Docker containers: cannot connect to the Docker daemon"
    fetch := fun _ _ => Except.ok "hello logs"
    summarize := fun _ => Except.ok "All healthy."
    emailOk := true
    maxLogChars := 20000 }

/-- A run environment where every fetched log text is empty. -/
def envW9 : Env :=
  { dryRun := false
    configOk := true
    dotenvPath := "/home/user/.config/summerlog/.env"
    watermark := some "2024-01-01T00:00:00+00:00"
    sinceHours := 24
    fallbackSince := "2024-05-31T12:00:00+00:00"
    nowStart := "2024-06-01T12:00:00+00:00"
    containersEnv := ["web", "db"]
    dockerPs := Except.ok []
    fetch := fun _ _ => Except.ok ""
    summarize := fun _ => Except.ok "All healthy."
    emailOk := true
    maxLogChars := 20000 }

theorem insertLog_values (f : String → String) {m : List (String × String)} {k : String}
    (hm : ∀ p ∈ m, p.2 = f p.1) :
    ∀ p ∈ insertLog m k (f k), p.2 = f p.1 := by
  intro p hp
  unfold insertLog at hp
  by_cases h : m.any (fun q => q.1 == k)
  · rw [if_pos h] at hp
    rcases List.mem_map.mp hp with ⟨q, hq, rfl⟩
    by_cases hqk : q.1 == k
    · simp [hqk]
    · simp only [hqk, if_neg, Bool.false_eq_true, not_false_eq_true, if_false]
      exact hm q hq
  · rw [if_neg h] at hp
    rcases List.mem_append.mp hp with h1 | h1
    · exact hm p h1
    · simp only [List.mem_singleton] at h1
      subst h1; rfl

theorem insertLog_keyMem {m : List (String × String)} {k v k' : String}
    (hk : ∃ w, (k', w) ∈ m) : ∃ w, (k', w) ∈ insertLog m k v := by
  rcases hk with ⟨w, hw⟩
  unfold insertLog
  by_cases h : m.any (fun q => q.1 == k)
  · rw [if_pos h]
    by_cases hkk : k' = k
    · subst hkk
      exact ⟨v, List.mem_map.mpr ⟨(k', w), hw, by simp⟩⟩
    · refine ⟨w, List.mem_map.mpr ⟨(k', w), hw, ?_⟩⟩
      have : ¬ (((k', w) : String × String).1 == k) := by
        simp only [beq_iff_eq]; exact hkk
      simp [this]
  · rw [if_neg h]
    exact ⟨w, List.mem_append.mpr (Or.inl hw)⟩

theorem insertLog_keyMem_self {m : List (String × String)} {k v : String} :
    ∃ w, (k, w) ∈ insertLog m k v := by
  unfold insertLog
  by_cases h : m.any (fun q => q.1 == k)
  · rw [if_pos h]
    rcases List.any_eq_true.mp h with ⟨q, hq, hqk⟩
    refine ⟨v, List.mem_map.mpr ⟨q, hq, ?_⟩⟩
    simp [hqk]
  · rw [if_neg h]
    exact ⟨v, List.mem_append.mpr (Or.inr (by simp))⟩

theorem insertLog_keys {m : List (String × String)} {k v : String} :
    ∀ p ∈ insertLog m k v, p.1 = k ∨ ∃ q ∈ m, p.1 = q.1 := by
  intro p hp
  unfold insertLog at hp
  by_cases h : m.any (fun q => q.1 == k)
  · rw [if_pos h] at hp
    rcases List.mem_map.mp hp with ⟨q, hq, rfl⟩
    by_cases hqk : q.1 == k
    · simp [hqk]
    · simp only [hqk, Bool.false_eq_true, not_false_eq_true, if_neg, if_false]
      exact Or.inr ⟨q, hq, rfl⟩
  · rw [if_neg h] at hp
    rcases List.mem_append.mp hp with h1 | h1
    · exact Or.inr ⟨p, h1, rfl⟩
    · simp only [List.mem_singleton] at h1
      subst h1; exact Or.inl rfl

theorem collect_fold_values (env : Env) (s : String) (names : List String) :
    ∀ (m : List (String × String)),
      (∀ p ∈ m, p.2 = getContainerLogs env p.1 s) →
      ∀ p ∈ names.foldl (fun acc n => insertLog acc n (getContainerLogs env n s)) m,
        p.2 = getContainerLogs env p.1 s := by
  induction names with
  | nil => intro m hm p hp; exact hm p hp
  | cons n ns ih =>
    intro m hm p hp
    rw [List.foldl_cons] at hp
    exact ih _ (insertLog_values (fun x => getContainerLogs env x s) hm) p hp

theorem collect_fold_present (env : Env) (s : String) (names : List String) :
    ∀ (m : List (String × String)) (k : String),
      ((∃ w, (k, w) ∈ m) ∨ k ∈ names) →
      ∃ w, (k, w) ∈ names.foldl (fun acc n => insertLog acc n (getContainerLogs env n s)) m := by
  induction names with
  | nil =>
    intro m k hk
    rcases hk with h | h
    · exact h
    · cases h
  | cons n ns ih =>
    intro m k hk
    rw [List.foldl_cons]
    apply ih
    rcases hk with h | h
    · exact Or.inl (insertLog_keyMem h)
    · rcases List.mem_cons.mp h with rfl | h2
      · exact Or.inl insertLog_keyMem_self
      · exact Or.inr h2

theorem collect_fold_keys (env : Env) (s : String) (big : List String) :
    ∀ (names : List String), (∀ n ∈ names, n ∈ big) →
    ∀ (m : List (String × String)), (∀ p ∈ m, p.1 ∈ big) →
    ∀ p ∈ names.foldl (fun acc n => insertLog acc n (getContainerLogs env n s)) m,
      p.1 ∈ big := by
  intro names
  induction names with
  | nil => intro _ m hm p hp; exact hm p hp
  | cons n ns ih =>
    intro hsub m hm p hp
    rw [List.foldl_cons] at hp
    refine ih (fun a ha => hsub a (List.mem_cons_of_mem n ha)) _ ?_ p hp
    intro q hq
    rcases insertLog_keys q hq with h | ⟨r, hr, hqr⟩
    · rw [h]; exact hsub n (List.mem_cons_self n ns)
    · rw [hqr]; exact hm r hr

theorem collectLogData_values (env : Env) (s : String) (names : List String) :
    ∀ p ∈ collectLogData env s names, p.2 = getContainerLogs env p.1 s :=
  collect_fold_values env s names [] (by intro p hp; cases hp)

theorem collectLogData_keys (env : Env) (s : String) (names : List String) :
    ∀ p ∈ collectLogData env s names, p.1 ∈ names :=
  collect_fold_keys env s names names (fun _ h => h) [] (by intro p hp; cases hp)

theorem collectLogData_present (env : Env) (s : String) (names : List String)
    (k : String) (hk : k ∈ names) : ∃ w, (k, w) ∈ collectLogData env s names :=
  collect_fold_present env s names [] k (Or.inr hk)

theorem lookup_of_values (f : String → String) :
    ∀ (m : List (String × String)), (∀ p ∈ m, p.2 = f p.1) →
    ∀ (k : String), (∃ w, (k, w) ∈ m) →
    List.lookup k m = some (f k) := by
  intro m
  induction m with
  | nil => intro _ k hk; rcases hk with ⟨w, hw⟩; cases hw
  | cons a t ih =>
    intro hv k hk
    rcases a with ⟨a1, a2⟩
    by_cases hka : k = a1
    · subst hka
      have ha2 : a2 = f k := hv (k, a2) (List.mem_cons_self (k, a2) t)
      simp [List.lookup, ha2]
    · have hbeq : (k == a1) = false := beq_eq_false_iff_ne.mpr hka
      rw [List.lookup, hbeq]
      refine ih (fun p hp => hv p (List.mem_cons_of_mem _ hp)) k ?_
      rcases hk with ⟨w, hw⟩
      rcases List.mem_cons.mp hw with h1 | h1
      · exact absurd (congrArg Prod.fst h1) hka
      · exact ⟨w, h1⟩

theorem lookup_collectLogData (env : Env) (s : String) (names : List String)
    (k : String) (hk : k ∈ names) :
    List.lookup k (collectLogData env s names) = some (getContainerLogs env k s) :=
  lookup_of_values (fun x => getContainerLogs env x s) _ (collectLogData_values env s names) k
    (collectLogData_present env s names k hk)

theorem collect_all_empty (env : Env) (s : String) (names : List String)
    (h : ∀ n ∈ names, getContainerLogs env n s = "") :
    (collectLogData env s names).all (fun p => p.2 == "") = true := by
  rw [List.all_eq_true]
  intro p hp
  have h1 := collectLogData_values env s names p hp
  have h2 := collectLogData_keys env s names p hp
  simp [h1, h p.1 h2]

theorem marker_ne_empty (out : String) : ("Error collecting logs: " ++ out) ≠ "" := by
  intro h
  have h2 := congrArg String.length h
  rw [String.length_append] at h2
  have h3 : ("Error collecting logs: " : String).length = 23 := rfl
  have h4 : ("" : String).length = 0 := rfl
  rw [h3, h4] at h2
  omega

theorem collect_not_all_empty (env : Env) (s : String) (names : List String)
    (x : String) (hx : x ∈ names) (hne : getContainerLogs env x s ≠ "") :
    (collectLogData env s names).all (fun p => p.2 == "") = false := by
  rcases collectLogData_present env s names x hx with ⟨w, hw⟩
  have hwval : w = getContainerLogs env x s :=
    collectLogData_values env s names (x, w) hw
  rcases hall : (collectLogData env s names).all (fun p => p.2 == "") with _ | _
  · rfl
  · exfalso
    have := List.all_eq_true.mp hall (x, w) hw
    simp only [beq_iff_eq] at this
    exact hne (hwval ▸ this)

theorem joinSep_isPartOf (sep : String) :
    ∀ (l : List String) (x : String), x ∈ l → IsPartOf x.data (joinSep sep l).data := by
  intro l
  induction l with
  | nil => intro x hx; cases hx
  | cons s t ih =>
    intro x hx
    rcases List.mem_cons.mp hx with rfl | hx2
    · cases t with
      | nil => exact ⟨[], [], by simp [joinSep]⟩
      | cons u v =>
        refine ⟨[], (sep ++ joinSep sep (u :: v)).data, ?_⟩
        simp [joinSep, String.data_append]
    · cases t with
      | nil => cases hx2
      | cons u v =>
        rcases ih x hx2 with ⟨pre, post, hpp⟩
        refine ⟨(s ++ sep).data ++ pre, post, ?_⟩
        simp only [joinSep, String.data_append, List.append_assoc]
        rw [hpp]

theorem trimLogs_isTailOf (m : Nat) (logs : String) :
    IsTailOf (trimLogs m logs).data logs.data := by
  unfold trimLogs pySliceLast
  by_cases h : m = 0
  · exact ⟨[], by simp [h]⟩
  · exact ⟨logs.data.take (logs.data.length - m), by simp [h, List.take_append_drop]⟩

theorem trimLogs_length_le (m : Nat) (hm : 1 ≤ m) (logs : String) :
    (trimLogs m logs).length ≤ m := by
  unfold trimLogs pySliceLast
  have h0 : ¬ (m = 0) := by omega
  simp only [h0, if_false, String.length, List.length_drop]
  omega

theorem logSection_length (name body : String) :
    (logSection name body).length = name.length + body.length + sectionOverhead := by
  unfold logSection sectionOverhead
  simp only [String.length_append]
  have h1 : ("## Container: " : String).length = 14 := rfl
  have h2 : ("\n\n```\n" : String).length = 6 := rfl
  have h3 : ("\n```" : String).length = 4 := rfl
  omega

/-- C7: for every run in which source enumeration itself fails, the run
aborts with a non-zero exit status and the watermark file is unchanged. -/
theorem C7_enumeration_failure_aborts (env : Env) (msg : String)
    (hcfg : env.configOk = true)
    (henum : getDockerContainers env = Except.error msg) :
    (mainRun env).outcome.exitCode ≠ 0 ∧ (mainRun env).watermarkFile = env.watermark := by
  simp [mainRun, hcfg, henum, Outcome.exitCode]

/-- C7 witness: a concrete run whose `docker ps` call fails. -/
theorem C7_witness :
    envW7.configOk = true ∧
    getDockerContainers envW7
      = Except.error "Error getting Docker containers: cannot connect to the Docker daemon" ∧
    ((mainRun envW7).outcome.exitCode ≠ 0 ∧ (mainRun envW7).watermarkFile = envW7.watermark) :=
  ⟨rfl, rfl, C7_enumeration_failure_aborts envW7 _ rfl rfl⟩

/-- C3: for every run in which the summarizer client reports an error, the
process exits non-zero and the watermark file is unchanged. -/
theorem C3_summarizer_error_aborts (env : Env) (msg : String)
    (h : (mainRun env).summarizerOutcome = some (Except.error msg)) :
    (mainRun env).outcome.exitCode ≠ 0 ∧ (mainRun env).watermarkFile = env.watermark := by
  cases hcfg : env.configOk with
  | false => simp [mainRun, hcfg] at h
  | true =>
    cases henum : getDockerContainers env with
    | error m => simp [mainRun, hcfg, henum] at h
    | ok cs =>
      cases hemp : cs.isEmpty with
      | true => simp [mainRun, hcfg, henum, hemp] at h
      | false =>
        cases hall : (collectLogData env (sinceIso env) cs).all (fun p => p.2 == "") with
        | true => simp [mainRun, runCollected, hcfg, henum, hemp, hall] at h
        | false =>
          cases hsum : env.summarize
              (buildPrompt env.maxLogChars (collectLogData env (sinceIso env) cs) (sinceStrOf env)) with
          | error e =>
            simp [mainRun, runCollected, hcfg, henum, hemp, hall, hsum, Outcome.exitCode]
          | ok s =>
            cases hd : env.dryRun with
            | true => simp [mainRun, runCollected, hcfg, henum, hemp, hall, hsum, hd] at h
            | false =>
              cases he : env.emailOk with
              | true =>
                simp [mainRun, runCollected, hcfg, henum, hemp, hall, hsum, hd, he] at h
              | false =>
                simp [mainRun, runCollected, hcfg, henum, hemp, hall, hsum, hd, he,
                  Outcome.exitCode]

/-- C3 witness: a concrete run whose summarizer call errors. -/
theorem C3_witness :
    (mainRun envW3).summarizerOutcome = some (Except.error "Error calling OpenAI API: boom") ∧
    ((mainRun envW3).outcome.exitCode ≠ 0 ∧ (mainRun envW3).watermarkFile = envW3.watermark) :=
  ⟨rfl, C3_summarizer_error_aborts envW3 "Error calling OpenAI API: boom" rfl⟩

/-- C4: for every run in which delivery fails, the run aborts with a
non-zero exit status and the watermark is not committed. -/
theorem C4_delivery_failure_aborts (env : Env)
    (h : (mainRun env).deliveryOutcome = some false) :
    (mainRun env).outcome.exitCode ≠ 0 ∧ (mainRun env).watermarkFile = env.watermark := by
  cases hcfg : env.configOk with
  | false => simp [mainRun, hcfg] at h
  | true =>
    cases henum : getDockerContainers env with
    | error m => simp [mainRun, hcfg, henum] at h
    | ok cs =>
      cases hemp : cs.isEmpty with
      | true => simp [mainRun, hcfg, henum, hemp] at h
      | false =>
        cases hall : (collectLogData env (sinceIso env) cs).all (fun p => p.2 == "") with
        | true => simp [mainRun, runCollected, hcfg, henum, hemp, hall] at h
        | false =>
          cases hsum : env.summarize
              (buildPrompt env.maxLogChars (collectLogData env (sinceIso env) cs) (sinceStrOf env)) with
          | error e => simp [mainRun, runCollected, hcfg, henum, hemp, hall, hsum] at h
          | ok s =>
            cases hd : env.dryRun with
            | true => simp [mainRun, runCollected, hcfg, henum, hemp, hall, hsum, hd] at h
            | false =>
              cases he : env.emailOk with
              | true =>
                simp [mainRun, runCollected, hcfg, henum, hemp, hall, hsum, hd, he] at h
              | false =>
                simp [mainRun, runCollected, hcfg, henum, hemp, hall, hsum, hd, he,
                  Outcome.exitCode]

/-- C4 witness: a concrete run whose send_email call returns False. -/
theorem C4_witness :
    (mainRun envW4).deliveryOutcome = some false ∧
    ((mainRun envW4).outcome.exitCode ≠ 0 ∧ (mainRun envW4).watermarkFile = envW4.watermark) :=
  ⟨rfl, C4_delivery_failure_aborts envW4 rfl⟩

/-- C1: the watermark file is overwritten only by a run whose window was
confirmed empty (every fetched log text empty) or fully processed
(summary produced and delivered). -/
theorem C1_watermark_commit_gate (env : Env)
    (h : (mainRun env).watermarkFile ≠ env.watermark) :
    (∃ cs, getDockerContainers env = Except.ok cs ∧ cs.isEmpty = false ∧
      (collectLogData env (sinceIso env) cs).all (fun p => p.2 == "") = true) ∨
    (∃ s, (mainRun env).summarizerOutcome = some (Except.ok s) ∧
      (mainRun env).deliveryOutcome = some true) := by
  cases hcfg : env.configOk with
  | false => simp [mainRun, hcfg] at h
  | true =>
    cases henum : getDockerContainers env with
    | error m => simp [mainRun, hcfg, henum] at h
    | ok cs =>
      cases hemp : cs.isEmpty with
      | true => simp [mainRun, hcfg, henum, hemp] at h
      | false =>
        cases hall : (collectLogData env (sinceIso env) cs).all (fun p => p.2 == "") with
        | true => exact Or.inl ⟨cs, rfl, hemp, hall⟩
        | false =>
          cases hsum : env.summarize
              (buildPrompt env.maxLogChars (collectLogData env (sinceIso env) cs) (sinceStrOf env)) with
          | error e => simp [mainRun, runCollected, hcfg, henum, hemp, hall, hsum] at h
          | ok s =>
            cases hd : env.dryRun with
            | true => simp [mainRun, runCollected, hcfg, henum, hemp, hall, hsum, hd] at h
            | false =>
              cases he : env.emailOk with
              | true =>
                refine Or.inr ⟨s, ?_, ?_⟩ <;>
                  simp [mainRun, runCollected, hcfg, henum, hemp, hall, hsum, hd, he]
              | false =>
                simp [mainRun, runCollected, hcfg, henum, hemp, hall, hsum, hd, he] at h

/-- C1 witness: a concrete successful delivery run that rewrites the
watermark. -/
theorem C1_witness :
    ((mainRun envW1).watermarkFile ≠ envW1.watermark) ∧
    ((∃ cs, getDockerContainers envW1 = Except.ok cs ∧ cs.isEmpty = false ∧
        (collectLogData envW1 (sinceIso envW1) cs).all (fun p => p.2 == "") = true) ∨
      (∃ s, (mainRun envW1).summarizerOutcome = some (Except.ok s) ∧
        (mainRun envW1).deliveryOutcome = some true)) :=
  ⟨by decide, C1_watermark_commit_gate envW1 (by decide)⟩

/-- C2 (amended): every committed watermark value is the run-start
timestamp `current_timestamp`, which is captured immediately after the
watermark file is read and before sources are listed or fetched, the
summarizer is called, or delivery is attempted. -/
theorem C2_commit_value_is_run_start (env : Env) (v : String)
    (h : Event.writeWatermark v ∈ (mainRun env).trace) :
    v = env.nowStart ∧
    ∃ rest, (mainRun env).trace = Event.readWatermark :: Event.captureNow :: rest := by
  cases hcfg : env.configOk with
  | false => simp [mainRun, hcfg] at h
  | true =>
    cases henum : getDockerContainers env with
    | error m => simp [mainRun, hcfg, henum] at h
    | ok cs =>
      cases hemp : cs.isEmpty with
      | true => simp [mainRun, hcfg, henum, hemp] at h
      | false =>
        cases hall : (collectLogData env (sinceIso env) cs).all (fun p => p.2 == "") with
        | true =>
          have htr : (mainRun env).trace = Event.readWatermark :: Event.captureNow ::
              (Event.listSources :: (cs.map Event.fetchLogs
                ++ [Event.writeWatermark env.nowStart])) := by
            simp [mainRun, runCollected, hcfg, henum, hemp, hall]
          rw [htr] at h
          simp at h
          exact ⟨h, ⟨_, htr⟩⟩
        | false =>
          cases hsum : env.summarize
              (buildPrompt env.maxLogChars (collectLogData env (sinceIso env) cs) (sinceStrOf env)) with
          | error e => simp [mainRun, runCollected, hcfg, henum, hemp, hall, hsum] at h
          | ok s =>
            cases hd : env.dryRun with
            | true => simp [mainRun, runCollected, hcfg, henum, hemp, hall, hsum, hd] at h
            | false =>
              cases he : env.emailOk with
              | true =>
                have htr : (mainRun env).trace = Event.readWatermark :: Event.captureNow ::
                    (Event.listSources :: (cs.map Event.fetchLogs
                      ++ [Event.callSummarizer, Event.sendEmail,
                          Event.writeWatermark env.nowStart])) := by
                  simp [mainRun, runCollected, hcfg, henum, hemp, hall, hsum, hd, he]
                rw [htr] at h
                simp at h
                exact ⟨h, ⟨_, htr⟩⟩
              | false =>
                simp [mainRun, runCollected, hcfg, henum, hemp, hall, hsum, hd, he] at h

/-- C2 counterexample: a committing run in whose trace the watermark-file
read happens before the run-start capture, refuting "captured before any
I/O" as stated. -/
theorem C2_counterexample :
    Event.writeWatermark envC2.nowStart ∈ (mainRun envC2).trace ∧
    capturedBeforeExternals (mainRun envC2).trace = false :=
  ⟨by decide, by decide⟩

/-- C2 witness: the amended statement applied to a concrete committing
run. -/
theorem C2_witness :
    Event.writeWatermark envC2.nowStart ∈ (mainRun envC2).trace ∧
    (envC2.nowStart = envC2.nowStart ∧
      ∃ rest, (mainRun envC2).trace = Event.readWatermark :: Event.captureNow :: rest) :=
  ⟨by decide, C2_commit_value_is_run_start envC2 envC2.nowStart (by decide)⟩

/-- C6: a fetch failure for one source does not abort the run: that
source's entry in the log mapping is the inline error-marker text, every
source's entry is exactly its own fetch result, and the run still reaches
the summarizer. -/
theorem C6_fetch_error_isolated (env : Env) (cs : List String) (x out : String)
    (hcfg : env.configOk = true)
    (hcs : getDockerContainers env = Except.ok cs)
    (hx : x ∈ cs)
    (hf : env.fetch x (sinceIso env) = Except.error out) :
    List.lookup x (collectLogData env (sinceIso env) cs)
      = some ("Error collecting logs: " ++ out) ∧
    (∀ y ∈ cs, List.lookup y (collectLogData env (sinceIso env) cs)
      = some (getContainerLogs env y (sinceIso env))) ∧
    Event.callSummarizer ∈ (mainRun env).trace := by
  have hmarker : getContainerLogs env x (sinceIso env) = "Error collecting logs: " ++ out := by
    unfold getContainerLogs
    rw [hf]
  have hempb : cs.isEmpty = false := by
    cases cs with
    | nil => cases hx
    | cons a t => rfl
  have hall : (collectLogData env (sinceIso env) cs).all (fun p => p.2 == "") = false :=
    collect_not_all_empty env (sinceIso env) cs x hx
      (by rw [hmarker]; exact marker_ne_empty out)
  refine ⟨?_, ?_, ?_⟩
  · rw [lookup_collectLogData env (sinceIso env) cs x hx, hmarker]
  · intro y hy
    exact lookup_collectLogData env (sinceIso env) cs y hy
  · cases hsum : env.summarize
        (buildPrompt env.maxLogChars (collectLogData env (sinceIso env) cs) (sinceStrOf env)) with
    | error e => simp [mainRun, runCollected, hcfg, hcs, hempb, hall, hsum]
    | ok s =>
      cases hd : env.dryRun with
      | true => simp [mainRun, runCollected, hcfg, hcs, hempb, hall, hsum, hd]
      | false =>
        cases he : env.emailOk with
        | true => simp [mainRun, runCollected, hcfg, hcs, hempb, hall, hsum, hd, he]
        | false => simp [mainRun, runCollected, hcfg, hcs, hempb, hall, hsum, hd, he]

/-- C6 witness: two concrete sources, the fetch for "a" failing. -/
theorem C6_witness :
    envW6.configOk = true ∧
    getDockerContainers envW6 = Except.ok ["a", "b"] ∧
    "a" ∈ ["a", "b"] ∧
    envW6.fetch "a" (sinceIso envW6) = Except.error "boom" ∧
    (List.lookup "a" (collectLogData envW6 (sinceIso envW6) ["a", "b"])
        = some ("Error collecting logs: " ++ "boom") ∧
      (∀ y ∈ ["a", "b"], List.lookup y (collectLogData envW6 (sinceIso envW6) ["a", "b"])
        = some (getContainerLogs envW6 y (sinceIso envW6))) ∧
      Event.callSummarizer ∈ (mainRun envW6).trace) :=
  ⟨rfl, rfl, by decide, rfl,
    C6_fetch_error_isolated envW6 ["a", "b"] "a" "boom" rfl rfl (by decide) rfl⟩

/-- C9: when the container list is nonempty and every fetched log text is
empty, the run exits 0, commits the watermark to the run-start timestamp,
and performs no summarization or delivery. -/
theorem C9_empty_window_commits (env : Env) (cs : List String)
    (hcfg : env.configOk = true)
    (hcs : getDockerContainers env = Except.ok cs)
    (hne : cs ≠ [])
    (hempty : ∀ n ∈ cs, getContainerLogs env n (sinceIso env) = "") :
    (mainRun env).outcome.exitCode = 0 ∧
    (mainRun env).watermarkFile = some env.nowStart ∧
    (mainRun env).summarizerOutcome = none ∧
    (mainRun env).deliveryOutcome = none := by
  have hempb : cs.isEmpty = false := by
    cases cs with
    | nil => exact absurd rfl hne
    | cons a t => rfl
  have hall := collect_all_empty env (sinceIso env) cs hempty
  simp [mainRun, runCollected, hcfg, hcs, hempb, hall, Outcome.exitCode]

/-- C9 witness: two concrete sources both fetching empty text. -/
theorem C9_witness :
    envW9.configOk = true ∧
    getDockerContainers envW9 = Except.ok ["web", "db"] ∧
    (["web", "db"] ≠ ([] : List String)) ∧
    (∀ n ∈ (["web", "db"] : List String), getContainerLogs envW9 n (sinceIso envW9) = "") ∧
    ((mainRun envW9).outcome.exitCode = 0 ∧
      (mainRun envW9).watermarkFile = some envW9.nowStart ∧
      (mainRun envW9).summarizerOutcome = none ∧
      (mainRun envW9).deliveryOutcome = none) :=
  ⟨rfl, rfl, by decide, by decide,
    C9_empty_window_commits envW9 ["web", "db"] rfl rfl (by decide) (by decide)⟩

/-- C5: the dry-run flag does not stop the empty-window watermark commit:
in a concrete dry run whose fetched logs are all empty, delivery is never
attempted yet the watermark file is rewritten to the run-start timestamp,
although the --dry-run help text promises no timestamp update. -/
theorem C5_dry_run_commits_on_empty_window :
    envC5.dryRun = true ∧
    (mainRun envC5).watermarkFile = some envC5.nowStart ∧
    (mainRun envC5).watermarkFile ≠ envC5.watermark ∧
    (mainRun envC5).deliveryOutcome = none ∧
    Event.sendEmail ∉ (mainRun envC5).trace ∧
    (mainRun envC5).outcome.exitCode = 0 := by
  refine ⟨rfl, rfl, by decide, rfl, by decide, rfl⟩

/-- C8 (amended): for every nonempty log mapping and positive per-source
budget, each source's section keeps exactly a suffix of that source's
text, of length at most the budget; the section's total length is the
name plus the kept text plus fixed overhead, and the section occurs
contiguously in the logs block joined into the prompt. -/
theorem C8_tail_truncation (m : Nat) (hm : 1 ≤ m)
    (logData : List (String × String)) (hne : logData ≠ [])
    (name logs : String) (hmem : (name, logs) ∈ logData) :
    IsTailOf (trimLogs m logs).data logs.data ∧
    (trimLogs m logs).length ≤ m ∧
    (logSection name (trimLogs m logs)).length
      = name.length + (trimLogs m logs).length + sectionOverhead ∧
    IsPartOf (logSection name (trimLogs m logs)).data
      (joinSep "\n\n" (logSections m logData)).data := by
  refine ⟨trimLogs_isTailOf m logs, trimLogs_length_le m hm logs,
    logSection_length name (trimLogs m logs), ?_⟩
  apply joinSep_isPartOf
  unfold logSections
  exact List.mem_map.mpr ⟨(name, logs), hmem, rfl⟩

/-- C8 witness: one concrete source with an 11-character text and budget
5. -/
theorem C8_witness :
    1 ≤ 5 ∧
    ([(("app" : String), ("hello world" : String))] ≠ []) ∧
    (("app", "hello world") ∈ [(("app" : String), ("hello world" : String))]) ∧
    (IsTailOf (trimLogs 5 "hello world").data ("hello world" : String).data ∧
      (trimLogs 5 "hello world").length ≤ 5 ∧
      (logSection "app" (trimLogs 5 "hello world")).length
        = ("app" : String).length + (trimLogs 5 "hello world").length + sectionOverhead ∧
      IsPartOf (logSection "app" (trimLogs 5 "hello world")).data
        (joinSep "\n\n" (logSections 5 [("app", "hello world")])).data) :=
  ⟨by omega, by decide, by decide,
    C8_tail_truncation 5 (by omega) [("app", "hello world")] (by decide)
      "app" "hello world" (by decide)⟩

/-- C8 counterexample: with a per-source budget of exactly 0 the batcher
keeps the whole text, so the stated per-source bound fails. -/
theorem C8_budget_zero_counterexample :
    trimLogs 0 "xy" = "xy" ∧ ¬ ((trimLogs 0 "xy").length ≤ 0) :=
  ⟨rfl, by decide⟩

/-- C10: at budget exactly 0 the slice `logs[-0:]` is the whole string,
so the truncation keeps the entire text and the per-source bound fails at
budget 0. -/
theorem C10_slice_minus_zero_keeps_all :
    (∀ logs : String, trimLogs 0 logs = logs) ∧ ¬ ((trimLogs 0 "ab").length ≤ 0) :=
  ⟨fun _ => rfl, by decide⟩
